import Mathlib

/-!
# Verification of the tp-dcc-maya rigging utilities

Shallow embedding of the orientation, plane-orient meta-node, curve-snap
and matrix-offset code of the `tp-dcc-maya` repository, together with
theorems settling the frozen claims about it.

Host (Maya) transform algebra is modelled with explicit stand-ins where
the claims only depend on algebraic structure: composition of parent and
local transforms is modelled channel-wise (additive for translation and
rotation channels, multiplicative for scale), which is exact for the
concrete scenes used in the counterexamples (no interacting rotations).
All definitions are executable.
-/

/-- A 3-component vector with rational coordinates (stand-in for
`OpenMaya.MVector` / `api.Vector`). -/
structure V3 where
  x : ℚ
  y : ℚ
  z : ℚ
deriving DecidableEq, Repr

namespace V3

def add (a b : V3) : V3 := ⟨a.x + b.x, a.y + b.y, a.z + b.z⟩

def sub (a b : V3) : V3 := ⟨a.x - b.x, a.y - b.y, a.z - b.z⟩

def smul (c : ℚ) (a : V3) : V3 := ⟨c * a.x, c * a.y, c * a.z⟩

def dot (a b : V3) : ℚ := a.x * b.x + a.y * b.y + a.z * b.z

def cross (a b : V3) : V3 :=
  ⟨a.y * b.z - a.z * b.y, a.z * b.x - a.x * b.z, a.x * b.y - a.y * b.x⟩

def zero : V3 := ⟨0, 0, 0⟩

def one : V3 := ⟨1, 1, 1⟩

/-- Component-wise product (used for scale composition). -/
def mul (a b : V3) : V3 := ⟨a.x * b.x, a.y * b.y, a.z * b.z⟩

/-- Component-wise quotient (used to undo scale composition). -/
def div (a b : V3) : V3 := ⟨a.x / b.x, a.y / b.y, a.z / b.z⟩

end V3

/-- The three world axes, as selected by `mathlib.X_AXIS_VECTOR` /
`Y_AXIS_VECTOR` / `Z_AXIS_VECTOR` and by the enum attributes of the
plane-orient meta node. -/
inductive Axis where
  | X
  | Y
  | Z
deriving DecidableEq, Repr

/-- The unit vector of an axis. -/
def Axis.vec : Axis → V3
  | .X => ⟨1, 0, 0⟩
  | .Y => ⟨0, 1, 0⟩
  | .Z => ⟨0, 0, 1⟩

/-- The axis different from both arguments (arbitrary when they coincide). -/
def Axis.third : Axis → Axis → Axis
  | .X, .Y => .Z
  | .X, .Z => .Y
  | .Y, .X => .Z
  | .Y, .Z => .X
  | .Z, .X => .Y
  | .Z, .Y => .X
  | .X, .X => .Y
  | .Y, .Y => .Z
  | .Z, .Z => .X

/-- A 3×3 rational matrix given by its three columns; stand-in for the
rotation computed by the aim construction (columns are the images of the
basis vectors, kept unnormalised: over ℚ an unnormalised column is a
positive multiple of the normalised direction it aligns to). -/
structure M3 where
  cx : V3
  cy : V3
  cz : V3
deriving DecidableEq, Repr

namespace M3

def col (m : M3) : Axis → V3
  | .X => m.cx
  | .Y => m.cy
  | .Z => m.cz

def ofCols (f : Axis → V3) : M3 := ⟨f .X, f .Y, f .Z⟩

def mulVec (m : M3) (v : V3) : V3 :=
  (V3.smul v.x m.cx).add ((V3.smul v.y m.cy).add (V3.smul v.z m.cz))

def id : M3 := ofCols Axis.vec

end M3

namespace AlignModel

/-- Component of `u` orthogonal to `d` (Gram–Schmidt step): the
spec's "component of the world-up vector orthogonal to the primary
direction". -/
def perpComponent (u d : V3) : V3 :=
  u.sub (V3.smul (V3.dot u d / V3.dot d d) d)

/-- Modelled from the spec: the rotation produced by the aim/basis
construction of `align.orient_nodes` (module `tp.libs.rig.utils.maya.align`,
not under src/): a rotation sending the local primary axis to the aim
direction `d`, the local secondary axis to the component of the world-up
vector `u` orthogonal to `d`, and the remaining axis to their cross
product. Columns are kept unnormalised. -/
def aimMatrix (d u : V3) (primary secondary : Axis) : M3 :=
  M3.ofCols (fun a =>
    if a = primary then d
    else if a = secondary then perpComponent u d
    else (d.cross (perpComponent u d)))

/-- A node as seen by the alignment algorithm: a world position and a
rotation. -/
structure ANode where
  pos : V3
  rot : M3
deriving DecidableEq, Repr

def ANode.dflt : ANode := ⟨V3.zero, M3.id⟩

/-- Two nodes one unit apart along Y, both at the identity rotation. -/
def nodesTwoSample : List ANode := [⟨V3.zero, M3.id⟩, ⟨⟨0, 1, 0⟩, M3.id⟩]

/-- Modelled from the spec: body of `align.orient_nodes` over the node
list, threading the previous aim direction for the last node.  Each node
with a successor is rotated to aim at that successor; the last node is
left unrotated when `skipEnd` is true and otherwise reuses the incoming
direction. -/
def orientNodesAux (primary secondary : Axis) (up : V3) (skipEnd : Bool)
    (prevDir : Option V3) : List ANode → List ANode
  | [] => []
  | [last] =>
      if skipEnd then [last]
      else
        match prevDir with
        | none => [last]
        | some d => [{ last with rot := aimMatrix d up primary secondary }]
  | a :: b :: rest =>
      { a with rot := aimMatrix (b.pos.sub a.pos) up primary secondary } ::
        orientNodesAux primary secondary up skipEnd (some (b.pos.sub a.pos)) (b :: rest)

/-- Modelled from the spec: `align.orient_nodes` (not under src/). -/
def orientNodes (nodes : List ANode) (primary secondary : Axis) (up : V3)
    (skipEnd : Bool) : List ANode :=
  orientNodesAux primary secondary up skipEnd none nodes

/-- `OrientNodesCommand.do` (src/tp/maya/api/commands/orient.py), at the
level of positions and rotations: caches transforms (modelled separately
in `OrientCmd`), returns `False` on an empty list, otherwise runs
`align.orient_nodes` and returns `True`. -/
def orientNodesCommandDo (nodes : List ANode) (primary secondary : Axis)
    (up : V3) (skipEnd : Bool) : Bool × List ANode :=
  if nodes.isEmpty then (false, nodes)
  else (true, orientNodes nodes primary secondary up skipEnd)

end AlignModel

namespace OrientCmd

/-- A DAG transform/joint node of the scene model used by the command
embedding: local translate/rotate/scale channels, joint orient, joint
flag and parent index.  Channels are stand-ins composing additively
(translate, rotate) / multiplicatively (scale) along the parent chain. -/
structure TNode where
  t : V3
  r : V3
  s : V3
  jo : V3
  isJoint : Bool
  par : Option Nat
deriving DecidableEq, Repr

abbrev Scene := List TNode

def TNode.dflt : TNode := ⟨V3.zero, V3.zero, V3.one, V3.zero, false, none⟩

/-- World-space channels of a node (stand-in for the composed world
matrix). -/
structure WT where
  wt : V3
  wr : V3
  ws : V3
deriving DecidableEq, Repr

def WT.idWT : WT := ⟨V3.zero, V3.zero, V3.one⟩

/-- Effective rotation contribution of the joint orient: joints compose
`jointOrient` into their rotation, plain transforms do not. -/
def TNode.joEff (n : TNode) : V3 := if n.isJoint then n.jo else V3.zero

/-- World channels by walking the parent chain; `fuel` bounds the walk
(`sc.length` suffices for acyclic scenes). -/
def worldAux : Nat → Scene → Option Nat → WT
  | _, _, none => WT.idWT
  | 0, _, some _ => WT.idWT
  | fuel + 1, sc, some i =>
    match sc[i]? with
    | none => WT.idWT
    | some n =>
      let p := worldAux fuel sc n.par
      ⟨p.wt.add n.t, (p.wr.add n.joEff).add n.r, p.ws.mul n.s⟩

def worldOf (sc : Scene) (i : Nat) : WT := worldAux sc.length sc (some i)

/-- Update node `i` (no-op when out of range). -/
def upd (sc : Scene) (i : Nat) (f : TNode → TNode) : Scene :=
  match sc[i]? with
  | none => sc
  | some n => sc.set i (f n)

/-- `node.setTranslation(v, space=kTransformSpace)`. -/
def setLocalT (sc : Scene) (i : Nat) (v : V3) : Scene := upd sc i (fun n => { n with t := v })

/-- `node.setRotation(v, space=kTransformSpace)`. -/
def setLocalR (sc : Scene) (i : Nat) (v : V3) : Scene := upd sc i (fun n => { n with r := v })

/-- `node.setScale(v)`. -/
def setLocalS (sc : Scene) (i : Nat) (v : V3) : Scene := upd sc i (fun n => { n with s := v })

/-- `node.attribute('jointOrient').set(v)`. -/
def setJO (sc : Scene) (i : Nat) (v : V3) : Scene := upd sc i (fun n => { n with jo := v })

/-- `child.setParent(p)`: re-parents while preserving the child's world
transform, adjusting local channels accordingly (host semantics). -/
def setParentPreserve (sc : Scene) (c : Nat) (p : Option Nat) : Scene :=
  match sc[c]? with
  | none => sc
  | some n =>
    let w := worldOf sc c
    let pw := match p with
      | none => WT.idWT
      | some j => worldOf sc j
    sc.set c { n with
      par := p,
      t := w.wt.sub pw.wt,
      r := (w.wr.sub pw.wr).sub n.joEff,
      s := w.ws.div pw.ws }

/-- `node.children(node_types=(kJoint, kTransform))`: direct children of
node `i` (all nodes of this model are joints or transforms), in index
order. -/
def childrenOf (sc : Scene) (i : Nat) : List Nat :=
  (List.range sc.length).filter (fun c => ((sc[c]?).map TNode.par) = some (some i))

/-- One entry of `_transform_cache`: the node's handle and its cached
local translation, rotation, scale and, for joints, joint orient (the
source appends `jointOrient` only when `node.hasFn(kJoint)`, and `undo`
tests `len(transform) == 4`, here `jo.isSome`). -/
structure CacheEntry where
  id : Nat
  t : V3
  r : V3
  s : V3
  jo : Option V3
deriving DecidableEq, Repr

/-- The cache-building loop shared by `OrientNodesCommand.do` and
`PlaneOrientAlignCommand.do`. -/
def buildCache (sc : Scene) (ids : List Nat) : List CacheEntry :=
  ids.filterMap (fun i =>
    (sc[i]?).map (fun n => ⟨i, n.t, n.r, n.s, if n.isJoint then some n.jo else none⟩))

/-- Modelled from the spec: scene-level effect of `align.orient_nodes`
(module `tp.libs.rig.utils.maya.align`, not under src/): each node with a
successor gets its local rotation set to a value determined by the world
aim direction towards that successor (the direction itself serves as the
stand-in rotation channel value); the last node is left unrotated when
`skipEnd` is true, and otherwise reuses the incoming direction. -/
def orientSceneAux (skipEnd : Bool) (prev : Option V3) : Scene → List Nat → Scene
  | sc, [] => sc
  | sc, [i] =>
      if skipEnd then sc
      else
        match prev with
        | none => sc
        | some d => setLocalR sc i d
  | sc, a :: b :: rest =>
      let d := ((worldOf sc b).wt).sub ((worldOf sc a).wt)
      orientSceneAux skipEnd (some d) (setLocalR sc a d) (b :: rest)

/-- `OrientNodesCommand.do`: rebuilds the transform cache, returns
`False` on an empty node list, otherwise orients and returns `True`.
Result: (transform cache, scene after, return value). -/
def orientNodesDo (sc : Scene) (ids : List Nat) (skipEnd : Bool) :
    List CacheEntry × Scene × Bool :=
  let cache := buildCache sc ids
  if ids.isEmpty then (cache, sc, false)
  else (cache, orientSceneAux skipEnd none sc ids, true)

/-- One iteration of the `OrientNodesCommand.undo` loop over the cache.
`lastChild` threads the Python local variable reused by the body after
the un-parenting loop: the source applies the cached transform to
`child` — the last child un-parented (or the binding left over from a
previous iteration) — not to `node`; when no binding exists Python
raises `NameError` (modelled as `Except.error ()`). -/
def orientUndoStep (sc : Scene) (lastChild : Option Nat) (e : CacheEntry) :
    Except Unit (Scene × Option Nat) :=
  if e.id < sc.length then
    let children := childrenOf sc e.id
    let sc1 := children.foldl (fun s c => setParentPreserve s c none) sc
    match children.getLast?.orElse (fun _ => lastChild) with
    | none => Except.error ()
    | some ch =>
      let sc2 := setLocalT sc1 ch e.t
      let sc3 := setLocalR sc2 ch e.r
      let sc4 := setLocalS sc3 ch e.s
      let sc5 := match e.jo with
        | none => sc4
        | some v => setJO sc4 ch v
      let sc6 := children.foldl (fun s c => setParentPreserve s c (some e.id)) sc5
      Except.ok (sc6, some ch)
  else
    Except.ok (sc, lastChild)

/-- `OrientNodesCommand.undo`: walks the transform cache, skipping dead
handles (modelled as out-of-range ids). -/
def orientNodesUndo (sc : Scene) (cache : List CacheEntry) : Except Unit Scene :=
  (cache.foldl (fun acc e => acc.bind (fun p => orientUndoStep p.1 p.2 e))
    (Except.ok (sc, none))).map (fun p => p.1)

/-- Reasons passed to `self.cancel` by `OrientNodesCommand.resolve_arguments`. -/
inductive CancelReason where
  | noValidNodes
  | needTwoNodes
deriving DecidableEq, Repr

/-- `OrientNodesCommand.resolve_arguments`; `cancel` is modelled from the
spec as raising back to the command framework ("surfaced via
cancellation/exception back to the host's command execution framework"),
so a cancelled resolution yields `Except.error`. -/
def orientResolveArguments (ids : List Nat) : Except CancelReason (List Nat) :=
  if ids.isEmpty then Except.error CancelReason.noValidNodes
  else if ids.length < 2 then Except.error CancelReason.needTwoNodes
  else Except.ok ids

/-- The command framework pipeline for `tp.maya.nodes.orient`: resolve
arguments, then run `do`; a cancelled resolution leaves the scene
untouched and never reaches `do`. -/
def orientCommandExecute (sc : Scene) (ids : List Nat) (skipEnd : Bool) :
    Scene × Except CancelReason Bool :=
  match orientResolveArguments ids with
  | Except.error reason => (sc, Except.error reason)
  | Except.ok ids2 =>
    let res := orientNodesDo sc ids2 skipEnd
    (res.2.1, Except.ok res.2.2)

/-- `PlaneOrientMeta.project_and_align`
(src/tp/maya/meta/planeorient.py:305): its body is a bare
`print('Projecting and Aligning ...', skip_end)` — the scene is not
touched. -/
def projectAndAlign (sc : Scene) (_skipEnd : Bool) : Scene := sc

/-- The inputs `PlaneOrientAlignCommand.do` reads from its meta node:
handle liveness and the chain returned by `meta_node.nodes()`. -/
structure PlaneOrientAlignState where
  handleValid : Bool
  metaNodes : List Nat
deriving DecidableEq, Repr

/-- `PlaneOrientAlignCommand.do`: bails out on a dead handle, caches the
chain's transforms, returns `False` on an empty chain, otherwise calls
`project_and_align` and returns `True`. -/
def planeOrientAlignDo (sc : Scene) (st : PlaneOrientAlignState) (skipEnd : Bool) :
    List CacheEntry × Scene × Bool :=
  if st.handleValid = false then ([], sc, false)
  else
    let cache := buildCache sc st.metaNodes
    if st.metaNodes.isEmpty then (cache, sc, false)
    else (cache, projectAndAlign sc skipEnd, true)

/-- A joint with the given local translation and parent, otherwise at
rest. -/
def jointNode (t : V3) (p : Option Nat) : TNode := ⟨t, V3.zero, V3.one, V3.zero, true, p⟩

/-- Two-joint chain: node 0 at the origin, node 1 offset (0,1,0) under it. -/
def sceneTwo : Scene := [jointNode V3.zero none, jointNode ⟨0, 1, 0⟩ (some 0)]

/-- Three-joint chain: 0 → 1 at (0,1,0) → 2 at (0,0,3); only 0 and 1 are
passed to the orient command, node 2 is a bystander child. -/
def sceneThree : Scene :=
  [jointNode V3.zero none, jointNode ⟨0, 1, 0⟩ (some 0), jointNode ⟨0, 0, 3⟩ (some 1)]

end OrientCmd

namespace PlaneOrientMetaModel

/-- Attribute type constants used by `PlaneOrientMeta.meta_attributes`
(`api.attributetypes.kMFnMessageAttribute`, `kMFnkEnumAttribute`,
`kMFnNumericBoolean`). -/
inductive AttrType where
  | message
  | enumAttr
  | numericBoolean
deriving DecidableEq, Repr

/-- One attribute dictionary of the `meta_attributes` list: name, default
value (`None` for message attributes), type and enum field names. -/
structure AttrSpec where
  name : String
  value : Option Int
  type : AttrType
  enums : List String
deriving DecidableEq, Repr

def POSITION_MODE : Int := 0

def AXIS_ALIGNED_MODE : Int := 1

/-- The attribute dictionaries `PlaneOrientMeta.meta_attributes` extends
onto `super().meta_attributes()` (src/tp/maya/meta/planeorient.py:59-80);
the base-class attributes come from the meta framework, which is not
under src/ and not covered by the claim. -/
def planeOrientMetaAttributes : List AttrSpec :=
  [ { name := "tpPlaneOrientRefPlane", value := none, type := AttrType.message, enums := [] },
    { name := "tpPlaneOrientStartNode", value := none, type := AttrType.message, enums := [] },
    { name := "tpPlaneOrientEndNode", value := none, type := AttrType.message, enums := [] },
    { name := "tpPlaneOrientMode", value := some 0, type := AttrType.enumAttr,
      enums := ["Position", "AxisAligned"] },
    { name := "tpPlaneOrientPrimaryAxis", value := some 0, type := AttrType.enumAttr,
      enums := ["X", "Y", "Z"] },
    { name := "tpPlaneOrientSecondaryAxis", value := some 2, type := AttrType.enumAttr,
      enums := ["X", "Y", "Z"] },
    { name := "tpPlaneOrientNegatePrimaryAxis", value := some 0, type := AttrType.numericBoolean,
      enums := [] },
    { name := "tpPlaneOrientNegateSecondaryAxis", value := some 0, type := AttrType.numericBoolean,
      enums := [] },
    { name := "tpPlaneOrientAxisAlignedAxis", value := some 2, type := AttrType.enumAttr,
      enums := ["X", "Y", "Z"] },
    { name := "tpPlaneOrientNegateAxisAlignedAxis", value := some 0,
      type := AttrType.numericBoolean, enums := [] },
    { name := "tpPlaneOrientPositionSnap", value := some 0, type := AttrType.numericBoolean,
      enums := [] } ]

/-- Look an attribute up by name. -/
def findAttr (n : String) : Option AttrSpec :=
  planeOrientMetaAttributes.find? (fun a => a.name == n)

/-- A DAG node identified by its path, stored self-first (head = the
node's own id, tail = the parent's path, last = the root).  Two `DagNode`
wrappers are equal exactly when they wrap the same DAG path. -/
abbrev DPath := List Nat

/-- `node.parent()`: drop the node's own id (none at a root). -/
def parentPath : DPath → Option DPath
  | [] => none
  | [_] => none
  | _ :: rest => some rest

/-- `end_node.iterateParents()`: ancestors nearest-first. -/
def iterateParents : DPath → List DPath
  | [] => []
  | _ :: rest => if rest.isEmpty then [] else rest :: iterateParents rest

/-- The loop body of `PlaneOrientMeta.nodes`: walk the parents of the end
node, appending each until the start node is reached (which is appended
itself, then the loop breaks). -/
def collectChain : List DPath → DPath → List DPath
  | [], _ => []
  | p :: rest, s => if p = s then [s] else p :: collectChain rest s

/-- `PlaneOrientMeta.nodes` (src/tp/maya/meta/planeorient.py:232-250):
empty when either endpoint is disconnected, `[start]` when the
endpoints coincide, otherwise the reversed upward walk. -/
def metaNodes (startNode endNode : Option DPath) : List DPath :=
  match startNode, endNode with
  | some s, some e =>
    (if s = e then [s] else e :: collectChain (iterateParents e) s).reverse
  | _, _ => []

/-- The unreversed list built by the walk, for reasoning. -/
def ascendList (s e : DPath) : List DPath := e :: collectChain (iterateParents e) s

/-- `s` names a strict ancestor of `e`: a nonempty proper suffix of its
path. -/
def ancestorOf (s e : DPath) : Prop :=
  s ≠ [] ∧ s.length < e.length ∧ e.drop (e.length - s.length) = s

instance (s e : DPath) : Decidable (ancestorOf s e) := by
  unfold ancestorOf
  infer_instance

end PlaneOrientMetaModel

namespace CurveCmds

/-- Scene-side state of an `OpenMaya.MObject` as observed through an
`MObjectHandle`. -/
structure MObj where
  valid : Bool
  alive : Bool
deriving DecidableEq, Repr

/-- `OpenMaya.MObjectHandle(parent)`. -/
structure MObjHandle where
  obj : MObj
deriving DecidableEq, Repr

/-- The arguments inspected by the two curve-creation
`resolve_arguments` (the dict keys `curve_type` and `parent`;
`folder_path` is never inspected during resolution). -/
structure CurveArgs where
  curveType : Option String
  parent : Option MObj
deriving DecidableEq, Repr

/-- Arguments after resolution: the parent has been wrapped in a
handle. -/
structure ResolvedCurveArgs where
  curveType : Option String
  parent : Option MObjHandle
deriving DecidableEq, Repr

/-- How resolution can fail: the `raise ValueError(...)` for a falsy
curve type, or `self.cancel(...)` for a dead parent handle. -/
inductive ResolveFailure where
  | valueErrorBadCurveType
  | cancelledDeadParent
deriving DecidableEq, Repr

/-- Python truthiness test `if not curve_type` on an optional string. -/
def falsyCurveType : Option String → Bool
  | none => true
  | some s => s.isEmpty

/-- `CreateCurveFromLibrary.resolve_arguments`
(src/tp/maya/libs/curves/commands/curves.py:24-41); `cancel` is modelled
from the spec as raising back to the command framework. -/
def createCurveFromLibResolve (args : CurveArgs) : Except ResolveFailure ResolvedCurveArgs :=
  if falsyCurveType args.curveType then Except.error ResolveFailure.valueErrorBadCurveType
  else
    match args.parent with
    | some p =>
      let handle : MObjHandle := ⟨p⟩
      if !handle.obj.valid || !handle.obj.alive then
        Except.error ResolveFailure.cancelledDeadParent
      else Except.ok { curveType := args.curveType, parent := some handle }
    | none => Except.ok { curveType := args.curveType, parent := none }

/-- `CreateCurveFromFilePath.resolve_arguments`
(src/tp/maya/libs/curves/commands/curves.py:76-93): same body as the
library variant. -/
def createCurveFromFilePathResolve (args : CurveArgs) : Except ResolveFailure ResolvedCurveArgs :=
  if falsyCurveType args.curveType then Except.error ResolveFailure.valueErrorBadCurveType
  else
    match args.parent with
    | some p =>
      let handle : MObjHandle := ⟨p⟩
      if !handle.obj.valid || !handle.obj.alive then
        Except.error ResolveFailure.cancelledDeadParent
      else Except.ok { curveType := args.curveType, parent := some handle }
    | none => Except.ok { curveType := args.curveType, parent := none }

/-- Sample curve type name for witnesses. -/
def circleTypeName : String := "circle"

end CurveCmds

namespace SnapCurve

/-- Python `/` on numbers: `ZeroDivisionError` (none) on a zero
divisor. -/
def pyDiv (a b : ℚ) : Option ℚ := if b = 0 then none else some (a / b)

/-- The per-segment length computation of `snap_transforms_to_curve`
(src/tp/maya/cmds/curve.py:342-347), in source order: `part_length =
total_length / (count - 1)` runs before the `if count - 1 == 0` guard
that would set it to 0. -/
def snapTransformsPartLength (transforms : List α) (total_length : ℚ) : Option ℚ :=
  let count : Int := transforms.length
  match pyDiv total_length ((count : ℚ) - 1) with
  | none => none
  | some part => some (if count - 1 = 0 then 0 else part)

/-- Outcome of the part-length computation inside
`snap_joints_to_curve`. -/
inductive SnapOutcome where
  | earlyReturn
  | zeroDivisionError
  | partLength (q : ℚ)
deriving DecidableEq, Repr

/-- The control flow of `snap_joints_to_curve`
(src/tp/maya/cmds/curve.py:377-406) up to and including the per-segment
length: empty input returns early; fewer joints than `count` get
extended by duplication; `count == 0` falls back to the joint count; the
division by `count - 1` again precedes its zero guard. -/
def snapJointsPartLength (joints : List α) (count : Nat) (total_length : ℚ) : SnapOutcome :=
  if joints.isEmpty then SnapOutcome.earlyReturn
  else
    let jointCount := joints.length
    let jointCount2 := if jointCount < count ∧ count ≠ 0 then count else jointCount
    let count2 := if count = 0 then jointCount2 else count
    match pyDiv total_length ((count2 : ℚ) - 1) with
    | none => SnapOutcome.zeroDivisionError
    | some part => SnapOutcome.partLength (if (count2 : Int) - 1 = 0 then 0 else part)

end SnapCurve

namespace MatOff

/-- A transform node for the matrix-offset embedding: local TRS
attributes, joint orient, joint flag, `offsetParentMatrix` and the fixed
composed parent world matrix.  Matrices are modelled by one additive
channel (stand-in for the host matrix algebra: composition is `+`, the
identity `DEFAULT_MATRIX` is `0`). -/
structure MNode where
  t : V3
  r : V3
  s : V3
  jo : V3
  isJoint : Bool
  opm : ℚ
  parentWorld : ℚ
deriving DecidableEq, Repr

/-- Channel value of a local matrix built from TRS and joint orient:
zero translate/rotate/orient at scale one is the identity (0). -/
def localChan (t r s jo : V3) : ℚ :=
  (t.x + t.y + t.z) + (r.x + r.y + r.z) +
    ((s.x - 1) + (s.y - 1) + (s.z - 1)) + (jo.x + jo.y + jo.z)

/-- Joint-orient contribution: only joints compose `jointOrient` into
their local matrix. -/
def MNode.joEff (n : MNode) : V3 := if n.isJoint then n.jo else V3.zero

/-- `cmds.xform(query=True, matrix=True, worldSpace=False)`. -/
def localMatrix (n : MNode) : ℚ := localChan n.t n.r n.s n.joEff

/-- `cmds.xform(query=True, matrix=True, worldSpace=True)`. -/
def worldMatrix (n : MNode) : ℚ := n.parentWorld + n.opm + localMatrix n

/-- `cmds.xform(matrix=m, worldSpace=True)`: sets translate/rotate/scale
so the node's world matrix becomes `m` under the current parent, offset
parent matrix and joint orient (the host keeps `jointOrient` and
compensates in the other channels). -/
def setWorldMatrix (n : MNode) (m : ℚ) : MNode :=
  { n with
    t := ⟨m - n.parentWorld - n.opm - (n.joEff.x + n.joEff.y + n.joEff.z), 0, 0⟩,
    r := V3.zero,
    s := V3.one }

/-- `attributes.transform_is_zeroed`
(src/tp/maya/cmds/nodes/attributes.py:33-50): translate and rotate zero
and scale one; `jointOrient` is not inspected. -/
def transformIsZeroed (n : MNode) : Bool :=
  decide (n.t = V3.zero ∧ n.r = V3.zero ∧ n.s = V3.one)

/-- `attributes.reset_transform_attributes` with its default flags. -/
def resetTransformAttributes (n : MNode) : MNode :=
  { n with t := V3.zero, r := V3.zero, s := V3.one }

/-- `matrix.has_matrix_offset`: whether `offsetParentMatrix` differs
from `DEFAULT_MATRIX`. -/
def hasMatrixOffset (n : MNode) : Bool := !(n.opm == 0)

/-- `matrix.transform_to_matrix_offset`
(src/tp/maya/cmds/nodes/matrix.py:47-79).  The
`unlock_disconnect_transform` step is a no-op here (locks, keys and
connections are not modelled). -/
def transformToMatrixOffset (n : MNode) : MNode :=
  if transformIsZeroed n then n
  else
    let n1 := if hasMatrixOffset n then
        setWorldMatrix { n with opm := 0 } (worldMatrix n)
      else n
    let m := localMatrix n1
    let n2 := { resetTransformAttributes n1 with opm := m }
    if n2.isJoint then { n2 with jo := V3.zero } else n2

/-- A joint whose translate/rotate are zero and scale one but whose
joint orient is (30, 0, 0). -/
def zeroedJoint : MNode :=
  ⟨V3.zero, V3.zero, V3.one, ⟨30, 0, 0⟩, true, 0, 0⟩

/-- A joint with non-trivial local transform, offset parent matrix and
parent world matrix. -/
def sampleJoint : MNode :=
  ⟨⟨1, 2, 3⟩, ⟨4, 0, 0⟩, ⟨2, 1, 1⟩, ⟨5, 0, 0⟩, true, 7, 11⟩

end MatOff

namespace OrientCmd

/-- C4: a missing/empty node list or a singleton makes
`OrientNodesCommand.resolve_arguments` cancel (`Except.error`), the
command framework never runs `do`, and the scene is returned
unmodified. -/
theorem orient_resolve_cancels_short_lists (sc : Scene) (ids : List Nat)
    (skipEnd : Bool) (h : ids.length < 2) :
    (orientCommandExecute sc ids skipEnd).1 = sc ∧
      ∃ reason, (orientCommandExecute sc ids skipEnd).2 = Except.error reason := by
  match ids with
  | [] => exact ⟨rfl, ⟨CancelReason.noValidNodes, rfl⟩⟩
  | [a] => exact ⟨rfl, ⟨CancelReason.needTwoNodes, rfl⟩⟩
  | a :: b :: rest =>
    exfalso
    simp [List.length_cons] at h
    omega

/-- Witness for C4: the empty node list on a concrete two-joint scene. -/
theorem orient_resolve_cancels_short_lists_witness :
    (([] : List Nat).length < 2) ∧
      ((orientCommandExecute sceneTwo [] true).1 = sceneTwo ∧
        ∃ reason, (orientCommandExecute sceneTwo [] true).2 = Except.error reason) :=
  ⟨by decide, orient_resolve_cancels_short_lists sceneTwo [] true (by decide)⟩

/-- C2 (code bug): on the two-joint chain, `OrientNodesCommand.do`
followed by `OrientNodesCommand.undo` leaves node 0's local rotation at
the oriented value (0,1,0) instead of restoring the cached original
(0,0,0): the undo body writes the cached transform to the Python
variable `child` (the last un-parented child) instead of `node`. -/
theorem orient_undo_leaves_node_unrestored :
    ((orientNodesUndo (orientNodesDo sceneTwo [0, 1] true).2.1
        (orientNodesDo sceneTwo [0, 1] true).1).toOption.map
      (fun sc => (sc.getD 0 TNode.dflt).r)) = some ⟨0, 1, 0⟩ ∧
      (sceneTwo.getD 0 TNode.dflt).r = V3.zero := by with_unfolding_all decide

/-- C7 (code bug): on the three-joint chain where only nodes 0 and 1 are
oriented, the bystander child (node 2) does not keep its world
transform across `do`/`undo`: its world translation moves from (0,1,3)
to (0,1,0), because the undo body overwrites the last un-parented child
with the cached parent transform. -/
theorem orient_undo_changes_child_world :
    ((orientNodesUndo (orientNodesDo sceneThree [0, 1] true).2.1
        (orientNodesDo sceneThree [0, 1] true).1).toOption.map
      (fun sc => (worldOf sc 2).wt)) = some ⟨0, 1, 0⟩ ∧
      (worldOf sceneThree 2).wt = ⟨0, 1, 3⟩ := by with_unfolding_all decide

end OrientCmd

namespace OrientCmd

/-- C3 (code bug): `PlaneOrientAlignCommand.do` never modifies the
scene — `PlaneOrientMeta.project_and_align` is a print-only stub — yet
it returns `True` on a live handle with a non-empty chain, e.g. the
two-joint chain. -/
theorem plane_orient_align_do_is_stub :
    (∀ (sc : Scene) (st : PlaneOrientAlignState) (skipEnd : Bool),
        (planeOrientAlignDo sc st skipEnd).2.1 = sc) ∧
      (planeOrientAlignDo sceneTwo ⟨true, [0, 1]⟩ false).2.2 = true := by
  constructor
  · intro sc st k
    unfold planeOrientAlignDo projectAndAlign
    by_cases h : st.handleValid = false
    · simp [h]
    · simp [h]
      by_cases he : st.metaNodes = [] <;> simp [he]
  · rfl

end OrientCmd

namespace PlaneOrientMetaModel

/-- C6: the plane-orient meta node's attribute schema: reference plane,
start node and end node are message attributes; the mode is an enum over
Position/AxisAligned defaulting to Position (0); the three axis choices
are enums over X/Y/Z; the negate flags and the position-snap flag are
numeric booleans. -/
theorem plane_orient_meta_attribute_schema :
    ((findAttr (r"tpPlaneOrientRefPlane")).map AttrSpec.type = some AttrType.message) ∧
    ((findAttr (r"tpPlaneOrientStartNode")).map AttrSpec.type = some AttrType.message) ∧
    ((findAttr (r"tpPlaneOrientEndNode")).map AttrSpec.type = some AttrType.message) ∧
    (findAttr (r"tpPlaneOrientMode") =
      some { name := r"tpPlaneOrientMode", value := some POSITION_MODE,
             type := AttrType.enumAttr, enums := [r"Position", r"AxisAligned"] }) ∧
    (POSITION_MODE = 0 ∧ AXIS_ALIGNED_MODE = 1) ∧
    ((findAttr (r"tpPlaneOrientPrimaryAxis")).map (fun a => (a.type, a.enums)) =
      some (AttrType.enumAttr, [r"X", r"Y", r"Z"])) ∧
    ((findAttr (r"tpPlaneOrientSecondaryAxis")).map (fun a => (a.type, a.enums)) =
      some (AttrType.enumAttr, [r"X", r"Y", r"Z"])) ∧
    ((findAttr (r"tpPlaneOrientAxisAlignedAxis")).map (fun a => (a.type, a.enums)) =
      some (AttrType.enumAttr, [r"X", r"Y", r"Z"])) ∧
    ((findAttr (r"tpPlaneOrientNegatePrimaryAxis")).map AttrSpec.type
        = some AttrType.numericBoolean) ∧
    ((findAttr (r"tpPlaneOrientNegateSecondaryAxis")).map AttrSpec.type
        = some AttrType.numericBoolean) ∧
    ((findAttr (r"tpPlaneOrientNegateAxisAlignedAxis")).map AttrSpec.type
        = some AttrType.numericBoolean) ∧
    ((findAttr (r"tpPlaneOrientPositionSnap")).map AttrSpec.type
        = some AttrType.numericBoolean) := by decide

end PlaneOrientMetaModel

namespace SnapCurve

/-- C8 (code bug): on a singleton input both snap functions hit the
division `total_length / (count - 1)` with a zero divisor before the
`count - 1 == 0` guard can run, so Python raises `ZeroDivisionError`
(modelled by `none` / `zeroDivisionError`); for two or more transforms
the division succeeds. -/
theorem snap_singleton_divides_by_zero :
    snapTransformsPartLength [()] (5 : ℚ) = none ∧
      snapJointsPartLength [()] 1 (5 : ℚ) = SnapOutcome.zeroDivisionError ∧
      snapTransformsPartLength [(), ()] (5 : ℚ) = some 5 := by
  with_unfolding_all decide

end SnapCurve

namespace CurveCmds

/-- C5: for both curve-creation commands, argument resolution raises
`ValueError` on a missing/empty curve type, cancels on a dead parent
handle, and otherwise returns the arguments unchanged apart from the
parent being wrapped in a handle (or left as `None`). -/
theorem curve_resolve_checks (args : CurveArgs) :
    (falsyCurveType args.curveType = true →
        createCurveFromLibResolve args = Except.error ResolveFailure.valueErrorBadCurveType ∧
          createCurveFromFilePathResolve args
            = Except.error ResolveFailure.valueErrorBadCurveType) ∧
    (∀ p : MObj, args.parent = some p → falsyCurveType args.curveType = false →
        (p.valid = false ∨ p.alive = false) →
        createCurveFromLibResolve args = Except.error ResolveFailure.cancelledDeadParent ∧
          createCurveFromFilePathResolve args
            = Except.error ResolveFailure.cancelledDeadParent) ∧
    (∀ p : MObj, args.parent = some p → falsyCurveType args.curveType = false →
        p.valid = true → p.alive = true →
        createCurveFromLibResolve args = Except.ok ⟨args.curveType, some ⟨p⟩⟩ ∧
          createCurveFromFilePathResolve args = Except.ok ⟨args.curveType, some ⟨p⟩⟩) ∧
    (args.parent = none → falsyCurveType args.curveType = false →
        createCurveFromLibResolve args = Except.ok ⟨args.curveType, none⟩ ∧
          createCurveFromFilePathResolve args = Except.ok ⟨args.curveType, none⟩) := by
  refine ⟨?_, ?_, ?_, ?_⟩
  · intro h
    constructor <;> simp [createCurveFromLibResolve, createCurveFromFilePathResolve, h]
  · intro p hp hf hdead
    have hcond : (!p.valid || !p.alive) = true := by
      rcases hdead with h1 | h1 <;> simp [h1]
    constructor <;>
      simp [createCurveFromLibResolve, createCurveFromFilePathResolve, hf, hp, hcond]
  · intro p hp hf hv ha
    constructor <;>
      simp [createCurveFromLibResolve, createCurveFromFilePathResolve, hf, hp, hv, ha]
  · intro hp hf
    constructor <;>
      simp [createCurveFromLibResolve, createCurveFromFilePathResolve, hf, hp]

/-- Witness for C5: a live curve type with a dead parent handle
cancels. -/
theorem curve_resolve_checks_witness :
    createCurveFromLibResolve ⟨some circleTypeName, some ⟨false, true⟩⟩ =
        Except.error ResolveFailure.cancelledDeadParent ∧
      createCurveFromFilePathResolve ⟨some circleTypeName, some ⟨false, true⟩⟩ =
        Except.error ResolveFailure.cancelledDeadParent :=
  (curve_resolve_checks ⟨some circleTypeName, some ⟨false, true⟩⟩).2.1
    ⟨false, true⟩ rfl (by decide) (Or.inl rfl)

end CurveCmds

namespace MatOff

/-- C10 counterexample: a joint whose translate/rotate/scale are already
at rest but whose joint orient is (30,0,0) hits the early return of
`transform_to_matrix_offset`, so the claimed postcondition "for joints
the jointOrient is zero" fails. -/
theorem matrix_offset_keeps_joint_orient_when_zeroed :
    transformToMatrixOffset zeroedJoint = zeroedJoint ∧
      zeroedJoint.isJoint = true ∧ ¬ zeroedJoint.jo = V3.zero := by
  with_unfolding_all decide

/-- C10 amended: when the transform is not already zeroed,
`transform_to_matrix_offset` zeroes translate/rotate, sets scale to one,
zeroes a joint's orient and preserves the world matrix (the local
transform having moved into `offsetParentMatrix`); when it is already
zeroed the call changes nothing at all — in particular a joint's
nonzero jointOrient is left untouched. -/
theorem transform_to_matrix_offset_spec (n : MNode) :
    (transformIsZeroed n = false →
        (transformToMatrixOffset n).t = V3.zero ∧
          (transformToMatrixOffset n).r = V3.zero ∧
          (transformToMatrixOffset n).s = V3.one ∧
          ((transformToMatrixOffset n).isJoint = true → (transformToMatrixOffset n).jo = V3.zero) ∧
          worldMatrix (transformToMatrixOffset n) = worldMatrix n) ∧
      (transformIsZeroed n = true → transformToMatrixOffset n = n) := by
  constructor
  · intro h
    by_cases hm : n.opm = 0 <;> by_cases hj : n.isJoint = true <;>
      simp [transformToMatrixOffset, hasMatrixOffset, h, hm, hj, setWorldMatrix, worldMatrix,
        localMatrix, localChan, resetTransformAttributes, MNode.joEff, V3.zero, V3.one]
  · intro h
    simp [transformToMatrixOffset, h]

/-- Witness for C10: the non-zeroed sample joint goes through the main
path; the zeroed joint is returned unchanged. -/
theorem transform_to_matrix_offset_spec_witness :
    (transformIsZeroed sampleJoint = false ∧
        ((transformToMatrixOffset sampleJoint).t = V3.zero ∧
          (transformToMatrixOffset sampleJoint).r = V3.zero ∧
          (transformToMatrixOffset sampleJoint).s = V3.one ∧
          ((transformToMatrixOffset sampleJoint).isJoint = true →
            (transformToMatrixOffset sampleJoint).jo = V3.zero) ∧
          worldMatrix (transformToMatrixOffset sampleJoint) = worldMatrix sampleJoint)) ∧
      (transformIsZeroed zeroedJoint = true ∧ transformToMatrixOffset zeroedJoint = zeroedJoint) :=
  ⟨⟨by with_unfolding_all decide,
      (transform_to_matrix_offset_spec sampleJoint).1 (by with_unfolding_all decide)⟩,
    ⟨by with_unfolding_all decide,
      (transform_to_matrix_offset_spec zeroedJoint).2 (by with_unfolding_all decide)⟩⟩

end MatOff

namespace PlaneOrientMetaModel

/-- Walking one step: an ancestor of `x :: rest` is `rest` itself or an
ancestor of `rest`. -/
theorem ancestor_step (s : DPath) (x : Nat) (rest : List Nat)
    (h : ancestorOf s (x :: rest)) : s = rest ∨ ancestorOf s rest := by
  obtain ⟨hne, hlt, hdrop⟩ := h
  rw [List.length_cons] at hlt hdrop
  have hlt2 : s.length < rest.length ∨ s.length = rest.length := by omega
  rcases hlt2 with hlt2 | heq
  · right
    refine ⟨hne, hlt2, ?_⟩
    have hk : rest.length + 1 - s.length = (rest.length - s.length) + 1 := by omega
    rw [hk, List.drop_succ_cons] at hdrop
    exact hdrop
  · left
    have hk : rest.length + 1 - s.length = 1 := by omega
    rw [hk, List.drop_one] at hdrop
    exact hdrop.symm

/-- The unreversed walk of `PlaneOrientMeta.nodes` under the
strict-ancestor proviso: starts at the end node, stops at the start
node, and each element is followed by its parent. -/
theorem ascend_spec (e : DPath) : ∀ s : DPath, ancestorOf s e →
    (ascendList s e).head? = some e ∧ (ascendList s e).getLast? = some s ∧
      List.Chain' (fun a b => parentPath a = some b) (ascendList s e) := by
  induction e with
  | nil =>
    intro s h
    exact absurd h.2.1 (by simp)
  | cons x rest ih =>
    intro s h
    cases rest with
    | nil =>
      exfalso
      have h2 : s.length < 1 := by simpa using h.2.1
      exact h.1 (List.length_eq_zero.mp (by omega))
    | cons y ys =>
      rcases ancestor_step s x (y :: ys) h with heq | hanc
      · subst heq
        have hasc : ascendList (y :: ys) (x :: y :: ys) = [x :: y :: ys, y :: ys] := by
          simp [ascendList, iterateParents, collectChain]
        rw [hasc]
        refine ⟨rfl, rfl, ?_⟩
        rw [List.chain'_cons]
        exact ⟨rfl, List.chain'_singleton _⟩
      · have hne2 : ¬ (y :: ys) = s := by
          intro hcontra
          have := hanc.2.1
          rw [hcontra] at this
          omega
        have hstep : ascendList s (x :: y :: ys)
            = (x :: y :: ys) :: (y :: ys) :: collectChain (iterateParents (y :: ys)) s := by
          simp [ascendList, iterateParents, collectChain, hne2]
        obtain ⟨ih1, ih2, ih3⟩ := ih s hanc
        have hexp : ascendList s (y :: ys)
            = (y :: ys) :: collectChain (iterateParents (y :: ys)) s := rfl
        rw [hexp] at ih2 ih3
        refine ⟨rfl, ?_, ?_⟩
        · rw [hstep, List.getLast?_cons_cons]
          exact ih2
        · rw [hstep, List.chain'_cons]
          exact ⟨rfl, ih3⟩

end PlaneOrientMetaModel

namespace PlaneOrientMetaModel

/-- C9: `PlaneOrientMeta.nodes` returns `[]` when either endpoint is
disconnected, `[start]` when start equals end, and — when the start node
is a strict ancestor of the end node — the chain from start to end
ordered parent-to-child: it begins at the start node, ends at the end
node, and each element is the parent of the next. -/
theorem meta_nodes_spec (s e : DPath) :
    (metaNodes none (some e) = [] ∧ metaNodes (some s) none = [] ∧
      metaNodes (none : Option DPath) none = []) ∧
    metaNodes (some s) (some s) = [s] ∧
    (ancestorOf s e →
      (metaNodes (some s) (some e)).head? = some s ∧
        (metaNodes (some s) (some e)).getLast? = some e ∧
        List.Chain' (fun a b => parentPath b = some a) (metaNodes (some s) (some e))) := by
  refine ⟨⟨rfl, rfl, rfl⟩, by simp [metaNodes], ?_⟩
  intro h
  have hne : ¬ s = e := by
    intro hcontra
    have := h.2.1
    rw [hcontra] at this
    omega
  obtain ⟨h1, h2, h3⟩ := ascend_spec e s h
  have hm : metaNodes (some s) (some e) = (ascendList s e).reverse := by
    simp [metaNodes, hne, ascendList]
  rw [hm]
  refine ⟨?_, ?_, ?_⟩
  · rw [List.head?_reverse]
    exact h2
  · rw [List.getLast?_reverse]
    exact h1
  · rw [List.chain'_reverse]
    exact h3

/-- Witness for C9: the root `[0]` is an ancestor of its child `[1, 0]`
(paths are stored self-first), and the returned chain runs root to
end. -/
theorem meta_nodes_spec_witness :
    ancestorOf [0] [1, 0] ∧
      ((metaNodes (some [0]) (some [1, 0])).head? = some [0] ∧
        (metaNodes (some [0]) (some [1, 0])).getLast? = some [1, 0] ∧
        List.Chain' (fun a b => parentPath b = some a) (metaNodes (some [0]) (some [1, 0]))) :=
  ⟨by decide, (meta_nodes_spec [0] [1, 0]).2.2 (by decide)⟩

end PlaneOrientMetaModel

namespace AlignModel

/-- Multiplying a matrix by an axis unit vector selects that axis
column. -/
theorem mulVec_axis (m : M3) (a : Axis) : m.mulVec a.vec = m.col a := by
  cases a <;> simp [M3.mulVec, Axis.vec, M3.col, V3.smul, V3.add]

/-- The columns of the aim matrix. -/
theorem col_aim (d u : V3) (p s a : Axis) :
    (aimMatrix d u p s).col a
      = if a = p then d
        else if a = s then perpComponent u d
        else d.cross (perpComponent u d) := by
  cases a <;> rfl

/-- The aim matrix maps the primary axis to the aim direction. -/
theorem aim_primary (d u : V3) (p s : Axis) :
    (aimMatrix d u p s).mulVec p.vec = d := by
  rw [mulVec_axis, col_aim]
  simp

/-- The aim matrix maps the secondary axis to the orthogonal component
of the up vector. -/
theorem aim_secondary (d u : V3) (p s : Axis) (h : ¬ p = s) :
    (aimMatrix d u p s).mulVec s.vec = perpComponent u d := by
  rw [mulVec_axis, col_aim]
  have h2 : ¬ s = p := fun hc => h hc.symm
  simp [h2]

/-- The Gram–Schmidt component is orthogonal to the direction it was
projected against (also in the degenerate zero-direction case). -/
theorem perp_dot (u d : V3) : V3.dot (perpComponent u d) d = 0 := by
  unfold perpComponent V3.dot V3.sub V3.smul
  by_cases h : d.x * d.x + d.y * d.y + d.z * d.z = 0
  · have hx : d.x * d.x = 0 :=
      le_antisymm (by nlinarith [mul_self_nonneg d.y, mul_self_nonneg d.z]) (mul_self_nonneg _)
    have hy : d.y * d.y = 0 :=
      le_antisymm (by nlinarith [mul_self_nonneg d.x, mul_self_nonneg d.z]) (mul_self_nonneg _)
    have hz : d.z * d.z = 0 :=
      le_antisymm (by nlinarith [mul_self_nonneg d.x, mul_self_nonneg d.y]) (mul_self_nonneg _)
    have hx0 : d.x = 0 := mul_self_eq_zero.mp hx
    have hy0 : d.y = 0 := mul_self_eq_zero.mp hy
    have hz0 : d.z = 0 := mul_self_eq_zero.mp hz
    simp [hx0, hy0, hz0]
  · field_simp
    ring

/-- Shape of the modelled `orient_nodes` output: the length is kept,
every node with a successor carries the aim rotation towards it, and
under `skip_end` the last node is untouched. -/
theorem orientAux_get (primary secondary : Axis) (up : V3) (skipEnd : Bool)
    (l : List ANode) : ∀ prev : Option V3,
    (orientNodesAux primary secondary up skipEnd prev l).length = l.length ∧
      (∀ i, i + 1 < l.length →
        (orientNodesAux primary secondary up skipEnd prev l).getD i ANode.dflt
          = { l.getD i ANode.dflt with
              rot := aimMatrix (((l.getD (i + 1) ANode.dflt).pos).sub
                  ((l.getD i ANode.dflt).pos)) up primary secondary }) ∧
      (skipEnd = true → ¬ l = [] →
        (orientNodesAux primary secondary up skipEnd prev l).getD (l.length - 1) ANode.dflt
          = l.getD (l.length - 1) ANode.dflt) := by
  induction l with
  | nil =>
    intro prev
    refine ⟨rfl, ?_, ?_⟩
    · intro i hi
      simp at hi
    · intro _ hne
      exact absurd rfl hne
  | cons a l2 ih =>
    intro prev
    cases l2 with
    | nil =>
      refine ⟨?_, ?_, ?_⟩
      · cases skipEnd <;> cases prev <;> simp [orientNodesAux]
      · intro i hi
        simp [List.length_cons] at hi
      · intro hskip _
        subst hskip
        simp [orientNodesAux]
    | cons b rest =>
      obtain ⟨ihlen, ihget, ihlast⟩ := ih (some ((b.pos).sub a.pos))
      have hexp : orientNodesAux primary secondary up skipEnd prev (a :: b :: rest)
          = { a with rot := aimMatrix ((b.pos).sub a.pos) up primary secondary }
            :: orientNodesAux primary secondary up skipEnd (some ((b.pos).sub a.pos))
                (b :: rest) := rfl
      refine ⟨?_, ?_, ?_⟩
      · rw [hexp]
        simp [ihlen]
      · intro i hi
        match i with
        | 0 =>
          rw [hexp]
          simp
        | j + 1 =>
          rw [hexp]
          have hj : j + 1 < (b :: rest).length := by
            simp [List.length_cons] at hi ⊢
            omega
          have hstep := ihget j hj
          simp only [List.getD_cons_succ]
          exact hstep
      · intro hskip hne
        rw [hexp]
        have hlen2 : (a :: b :: rest).length - 1 = rest.length + 1 := by
          simp [List.length_cons]
        rw [hlen2, List.getD_cons_succ, List.getD_cons_succ]
        have h3 := ihlast hskip (by simp)
        simpa [List.length_cons] using h3

end AlignModel

namespace AlignModel

/-- C1: for a list of at least two nodes and distinct primary/secondary
axes, `OrientNodesCommand.do` returns `True` and gives every node `i`
with a successor a rotation sending the local primary axis to the aim
direction `P(i+1) - P(i)` (an unnormalised positive multiple of its
normalisation) and the local secondary axis to the component of the
world-up hint orthogonal to that direction (the image is orthogonal to
the aim direction); when `skip_end` is true the last node is left
unrotated. -/
theorem orient_nodes_command_aligns (nodes : List ANode) (primary secondary : Axis)
    (up : V3) (skipEnd : Bool) (hlen : 2 ≤ nodes.length) (hax : ¬ primary = secondary) :
    (orientNodesCommandDo nodes primary secondary up skipEnd).1 = true ∧
      ((orientNodesCommandDo nodes primary secondary up skipEnd).2).length = nodes.length ∧
      (∀ i, i + 1 < nodes.length →
        ((((orientNodesCommandDo nodes primary secondary up skipEnd).2).getD i
              ANode.dflt).rot.mulVec primary.vec
            = ((nodes.getD (i + 1) ANode.dflt).pos).sub ((nodes.getD i ANode.dflt).pos) ∧
          ((((orientNodesCommandDo nodes primary secondary up skipEnd).2).getD i
              ANode.dflt).rot.mulVec secondary.vec
            = perpComponent up (((nodes.getD (i + 1) ANode.dflt).pos).sub
                ((nodes.getD i ANode.dflt).pos))) ∧
          V3.dot ((((orientNodesCommandDo nodes primary secondary up skipEnd).2).getD i
                ANode.dflt).rot.mulVec secondary.vec)
              (((nodes.getD (i + 1) ANode.dflt).pos).sub ((nodes.getD i ANode.dflt).pos))
            = 0)) ∧
      (skipEnd = true →
        ((orientNodesCommandDo nodes primary secondary up skipEnd).2).getD
            (nodes.length - 1) ANode.dflt
          = nodes.getD (nodes.length - 1) ANode.dflt) := by
  have hne : nodes.isEmpty = false := by
    cases nodes with
    | nil => simp at hlen
    | cons a l => simp
  have hdo : orientNodesCommandDo nodes primary secondary up skipEnd
      = (true, orientNodesAux primary secondary up skipEnd none nodes) := by
    simp [orientNodesCommandDo, hne, orientNodes]
  obtain ⟨hl, hg, hlast⟩ := orientAux_get primary secondary up skipEnd nodes none
  rw [hdo]
  dsimp only
  refine ⟨rfl, hl, ?_, ?_⟩
  · intro i hi
    rw [hg i hi]
    refine ⟨aim_primary _ _ _ _, aim_secondary _ _ _ _ hax, ?_⟩
    rw [aim_secondary _ _ _ _ hax]
    exact perp_dot up _
  · intro hskip
    refine hlast hskip ?_
    cases nodes with
    | nil => simp at hlen
    | cons a l => simp

/-- Witness for C1: the two-node sample, primary X, secondary Y, up Z,
skip end. -/
theorem orient_nodes_command_aligns_witness :
    2 ≤ nodesTwoSample.length ∧ ¬ Axis.X = Axis.Y ∧
      ((orientNodesCommandDo nodesTwoSample Axis.X Axis.Y ⟨0, 0, 1⟩ true).1 = true ∧
        ((orientNodesCommandDo nodesTwoSample Axis.X Axis.Y ⟨0, 0, 1⟩ true).2).length
            = nodesTwoSample.length ∧
        (∀ i, i + 1 < nodesTwoSample.length →
          ((((orientNodesCommandDo nodesTwoSample Axis.X Axis.Y ⟨0, 0, 1⟩ true).2).getD i
                ANode.dflt).rot.mulVec Axis.X.vec
              = ((nodesTwoSample.getD (i + 1) ANode.dflt).pos).sub
                  ((nodesTwoSample.getD i ANode.dflt).pos) ∧
            ((((orientNodesCommandDo nodesTwoSample Axis.X Axis.Y ⟨0, 0, 1⟩ true).2).getD i
                ANode.dflt).rot.mulVec Axis.Y.vec
              = perpComponent ⟨0, 0, 1⟩ (((nodesTwoSample.getD (i + 1) ANode.dflt).pos).sub
                  ((nodesTwoSample.getD i ANode.dflt).pos))) ∧
            V3.dot ((((orientNodesCommandDo nodesTwoSample Axis.X Axis.Y ⟨0, 0, 1⟩ true).2).getD i
                  ANode.dflt).rot.mulVec Axis.Y.vec)
                (((nodesTwoSample.getD (i + 1) ANode.dflt).pos).sub
                  ((nodesTwoSample.getD i ANode.dflt).pos))
              = 0)) ∧
        (true = true →
          ((orientNodesCommandDo nodesTwoSample Axis.X Axis.Y ⟨0, 0, 1⟩ true).2).getD
              (nodesTwoSample.length - 1) ANode.dflt
            = nodesTwoSample.getD (nodesTwoSample.length - 1) ANode.dflt)) :=
  ⟨by decide, by decide,
    orient_nodes_command_aligns nodesTwoSample Axis.X Axis.Y ⟨0, 0, 1⟩ true
      (by decide) (by decide)⟩

end AlignModel
